import Mathlib

set_option maxRecDepth 4000

/-!
Shallow embedding of the date-windowed time-series reducer of
`rr-ts-d3-starter-kit` (the `GraphScreenState` reducer registered via
`handleActions`, plus the `randomDotsScreenReducer` of the
random-dots chart screen).

Timestamps (moment.Moment values at minute granularity) are embedded as
`Int`: the number of minutes since 2010-05-01T00:00 (the value of
`DATE_RANGE_MIN_VALUE` in the source).  A day is 1440 minutes.
`moment.hours()` and `moment.minutes()` are the clock fields hour-of-day
and minute-of-hour, i.e. `(t mod 1440) / 60` and `t mod 60` under this
encoding.  Cloning a moment or shallow-copying an array produces a value
logically equal to the original, so in this pure-value embedding a clone
is the value itself.
-/

/-- One sample of the series (`DateTimePoint` in the source):
`time` is the timestamp, `value` the numeric sample. -/
structure DateTimePoint where
  time : Int
  value : Int
deriving Repr, DecidableEq

/-- `const SAMPLE_VALUE_MAX = 150` (declared in the source module and
never read by the series generator or the reducer). -/
def SAMPLE_VALUE_MAX : Int := 150

/-- `const DATE_RANGE_MIN_VALUE = moment("2010-05-01")`: the epoch of the
minute encoding, hence 0. -/
def DATE_RANGE_MIN_VALUE : Int := 0

/-- `const DATE_RANGE_MAX_VALUE = moment("2010-05-28")`: 27 days after
the range minimum, in minutes. -/
def DATE_RANGE_MAX_VALUE : Int := 27 * 1440

/-- `const DATE_WINDOW_FROM_VALUE = moment("2010-05-03")`: 2 days after
the range minimum, in minutes. -/
def DATE_WINDOW_FROM_VALUE : Int := 2 * 1440

/-- `const DATE_WINDOW_TO_VALUE = moment("2010-05-05")`: 4 days after
the range minimum, in minutes. -/
def DATE_WINDOW_TO_VALUE : Int := 4 * 1440

/-- `const SAMPLES_EVERY_MINUTE = 5`: the sampling step in minutes. -/
def SAMPLES_EVERY_MINUTE : Int := 5

/-- `moment.hours()`: the hour-of-day clock field of a timestamp
(Euclidean mod and division, as clock fields are never negative). -/
def momentHours (t : Int) : Int := t % 1440 / 60

/-- `moment.minutes()`: the minute-of-hour clock field of a timestamp. -/
def momentMinutes (t : Int) : Int := t % 60

/-- The sample value emitted by the generator at a reference date:
`180 * referenceDate.hours() + referenceDate.minutes()`. -/
def sampleValue (referenceDate : Int) : Int :=
  180 * momentHours referenceDate + momentMinutes referenceDate

/-- The while loop of `randomDateTimePoints`, written with explicit fuel
so that the recursion is structural.  The source loop runs
`(DATE_RANGE_MAX_VALUE - DATE_RANGE_MIN_VALUE) / SAMPLES_EVERY_MINUTE
= 7776` times, so any fuel of at least 7776 iterations is a faithful
rendering of the unbounded while loop. -/
def randomDateTimePointsAux : Nat → Int → List DateTimePoint
  | 0, _ => []
  | fuel + 1, referenceDate =>
    if referenceDate < DATE_RANGE_MAX_VALUE then
      ⟨referenceDate, sampleValue referenceDate⟩ ::
        randomDateTimePointsAux fuel (referenceDate + SAMPLES_EVERY_MINUTE)
    else []

/-- `randomDateTimePoints`: starting at `DATE_RANGE_MIN_VALUE`, while the
reference date is strictly before `DATE_RANGE_MAX_VALUE`, emit
`{ time: referenceDate, value: 180*hours + minutes }` and advance the
reference date by `SAMPLES_EVERY_MINUTE` minutes. -/
def randomDateTimePoints : List DateTimePoint :=
  randomDateTimePointsAux 8000 DATE_RANGE_MIN_VALUE

/-- `GraphScreenState`: the state shape of the date-windowed series
store, `{ dateFrom, dateTo, points }`. -/
structure GraphScreenState where
  dateFrom : Int
  dateTo : Int
  points : List DateTimePoint
deriving Repr, DecidableEq

/-- The two action types handled by the reducer
(`CHANGE_DATE_FROM_VALUE` and `CHANGE_DATE_TO_VALUE`), each carrying a
moment payload. -/
inductive GraphScreenAction where
  | changeDateFromValue (payload : Int)
  | changeDateToValue (payload : Int)
deriving Repr, DecidableEq

/-- The `CHANGE_DATE_FROM_VALUE` handler: if the payload is before
`DATE_RANGE_MIN_VALUE` the command is rejected and the state returned
unchanged; otherwise a new state is built with `dateFrom` set to the
payload and `dateTo`, `points` carried over (clones in the source;
values here). -/
def changeDateFromHandler (state : GraphScreenState) (payload : Int) : GraphScreenState :=
  if payload < DATE_RANGE_MIN_VALUE then
    state
  else
    { dateFrom := payload, dateTo := state.dateTo, points := state.points }

/-- The `CHANGE_DATE_TO_VALUE` handler: if the payload is after
`DATE_RANGE_MAX_VALUE` the command is rejected and the state returned
unchanged; otherwise a new state is built with `dateTo` set to the
payload and `dateFrom`, `points` carried over. -/
def changeDateToHandler (state : GraphScreenState) (payload : Int) : GraphScreenState :=
  if DATE_RANGE_MAX_VALUE < payload then
    state
  else
    { dateFrom := state.dateFrom, dateTo := payload, points := state.points }

/-- The reducer produced by `handleActions`: dispatch on the action type
to the matching handler. -/
def graphScreenReducer (state : GraphScreenState) (action : GraphScreenAction) :
    GraphScreenState :=
  match action with
  | .changeDateFromValue payload => changeDateFromHandler state payload
  | .changeDateToValue payload => changeDateToHandler state payload

/-- `initialState`: the default window over the freshly generated series. -/
def initialState : GraphScreenState :=
  { dateFrom := DATE_WINDOW_FROM_VALUE
    dateTo := DATE_WINDOW_TO_VALUE
    points := randomDateTimePoints }

/-- A state is reachable when some finite sequence of dispatched actions
leads to it from `initialState`. -/
def Reachable (s : GraphScreenState) : Prop :=
  ∃ acts : List GraphScreenAction, s = acts.foldl graphScreenReducer initialState

/-- `IRandomDotsScreenState` of the random-dots chart screen.  The state
interface file itself is not in the sources; the fields and their
defaults are taken from `initialState` in `reducers.ts`
(`{ width: 800, height: 600, color: 'lightblue' }`) and from the
`text` field written by the `BLUE_SCR_SET_TEXT` case (absent
initially, hence an option). -/
structure IRandomDotsScreenState where
  width : Int
  height : Int
  color : String
  text : Option String
deriving Repr, DecidableEq

/-- `initialState` of `randomDotsScreenReducer`. -/
def randomDotsInitialState : IRandomDotsScreenState :=
  { width := 800, height := 600, color := "lightblue", text := none }

/-- The actions reaching `randomDotsScreenReducer`: the three recognized
types (`BLUE_SCR_SET_WIDTH`, `BLUE_SCR_SET_HEIGHT`, `BLUE_SCR_SET_TEXT`)
plus an `other` case for any action whose type string is none of the
three, which falls to the default branch of the switch. -/
inductive RandomDotsScreenAction where
  | setWidth (width : Int)
  | setHeight (height : Int)
  | setText (text : String)
  | other
deriving Repr, DecidableEq

/-- `randomDotsScreenReducer`: switch on the action type; each
recognized case spreads the prior state and overwrites one field; the
default case returns the prior state. -/
def randomDotsScreenReducer (state : IRandomDotsScreenState)
    (action : RandomDotsScreenAction) : IRandomDotsScreenState :=
  match action with
  | .setWidth w => { state with width := w }
  | .setHeight h => { state with height := h }
  | .setText t => { state with text := some t }
  | .other => state

/-! ## Lemmas about the series generator -/

/-- Unfolding of the generator loop when fuel remains. -/
lemma randomDateTimePointsAux_succ (fuel : Nat) (referenceDate : Int) :
    randomDateTimePointsAux (fuel + 1) referenceDate =
      if referenceDate < DATE_RANGE_MAX_VALUE then
        ⟨referenceDate, sampleValue referenceDate⟩ ::
          randomDateTimePointsAux fuel (referenceDate + SAMPLES_EVERY_MINUTE)
      else [] := rfl

/-- Length of the generator loop output: five times the length covers
exactly the distance from the reference date to the range maximum,
provided the fuel suffices and the distance is a multiple of the step. -/
lemma randomDateTimePointsAux_length :
    ∀ (fuel : Nat) (referenceDate : Int),
      referenceDate ≤ DATE_RANGE_MAX_VALUE →
      (5 : Int) ∣ (DATE_RANGE_MAX_VALUE - referenceDate) →
      DATE_RANGE_MAX_VALUE - referenceDate ≤ 5 * fuel →
      5 * ((randomDateTimePointsAux fuel referenceDate).length : Int) =
        DATE_RANGE_MAX_VALUE - referenceDate := by
  intro fuel
  induction fuel with
  | zero =>
    intro referenceDate hle _ hfuel
    simp only [randomDateTimePointsAux, List.length_nil]
    omega
  | succ n ih =>
    intro referenceDate hle hdvd hfuel
    rw [randomDateTimePointsAux_succ]
    by_cases h : referenceDate < DATE_RANGE_MAX_VALUE
    · rw [if_pos h]
      have h5 : referenceDate + SAMPLES_EVERY_MINUTE ≤ DATE_RANGE_MAX_VALUE := by
        simp only [SAMPLES_EVERY_MINUTE]; omega
      have := ih (referenceDate + SAMPLES_EVERY_MINUTE)
        (by simpa [SAMPLES_EVERY_MINUTE] using h5)
        (by simp only [SAMPLES_EVERY_MINUTE]; omega)
        (by simp only [SAMPLES_EVERY_MINUTE]; omega)
      simp only [List.length_cons, SAMPLES_EVERY_MINUTE] at *
      push_cast at *
      omega
    · rw [if_neg h]
      simp only [List.length_nil]
      omega

/-- The element emitted at iteration `k` of the generator loop belongs to
the output, as long as the fuel reaches that iteration and its reference
date is still below the range maximum. -/
lemma randomDateTimePointsAux_mem :
    ∀ (fuel k : Nat) (referenceDate : Int),
      k < fuel →
      referenceDate + 5 * k < DATE_RANGE_MAX_VALUE →
      (⟨referenceDate + 5 * k, sampleValue (referenceDate + 5 * k)⟩ : DateTimePoint) ∈
        randomDateTimePointsAux fuel referenceDate := by
  intro fuel
  induction fuel with
  | zero => intro k _ hk _; omega
  | succ n ih =>
    intro k referenceDate hk hlt
    have hhead : referenceDate < DATE_RANGE_MAX_VALUE := by omega
    rw [randomDateTimePointsAux_succ, if_pos hhead]
    cases k with
    | zero => simp
    | succ j =>
      have := ih j (referenceDate + SAMPLES_EVERY_MINUTE)
        (by omega)
        (by simp only [SAMPLES_EVERY_MINUTE]; push_cast at *; omega)
      right
      have harg : referenceDate + SAMPLES_EVERY_MINUTE + 5 * (j : Int) =
          referenceDate + 5 * ((j : Int) + 1) := by
        simp only [SAMPLES_EVERY_MINUTE]; ring
      simpa [harg, Nat.cast_succ] using this

/-- Every value emitted by the generator loop lies between 0 and 4195,
provided the reference date is a multiple of the 5-minute step (as every
reference date of the actual run is). -/
lemma randomDateTimePointsAux_value_bounds :
    ∀ (fuel : Nat) (referenceDate : Int),
      (5 : Int) ∣ referenceDate →
      ∀ p ∈ randomDateTimePointsAux fuel referenceDate,
        0 ≤ p.value ∧ p.value ≤ 4195 := by
  intro fuel
  induction fuel with
  | zero => intro referenceDate _ p hp; simp [randomDateTimePointsAux] at hp
  | succ n ih =>
    intro referenceDate hdvd p hp
    rw [randomDateTimePointsAux_succ] at hp
    by_cases h : referenceDate < DATE_RANGE_MAX_VALUE
    · rw [if_pos h] at hp
      rcases List.mem_cons.mp hp with hhead | htail
      · subst hhead
        simp only [sampleValue, momentHours, momentMinutes]
        omega
      · exact ih (referenceDate + SAMPLES_EVERY_MINUTE)
          (by simp only [SAMPLES_EVERY_MINUTE]; omega) p htail
    · rw [if_neg h] at hp
      simp at hp

/-- The first two emitted points, by unfolding the loop twice. -/
lemma randomDateTimePoints_eq_cons :
    randomDateTimePoints =
      ⟨0, 0⟩ :: ⟨5, 5⟩ :: randomDateTimePointsAux 7998 10 := rfl

/-! ## Lemmas about the graph-screen reducer -/

/-- One dispatched action preserves the one-sided window bounds that the
two guards actually enforce. -/
lemma graphScreenReducer_preserves_bounds (s : GraphScreenState) (a : GraphScreenAction)
    (h1 : DATE_RANGE_MIN_VALUE ≤ s.dateFrom) (h2 : s.dateTo ≤ DATE_RANGE_MAX_VALUE) :
    DATE_RANGE_MIN_VALUE ≤ (graphScreenReducer s a).dateFrom ∧
      (graphScreenReducer s a).dateTo ≤ DATE_RANGE_MAX_VALUE := by
  cases a with
  | changeDateFromValue payload =>
    simp only [graphScreenReducer, changeDateFromHandler]
    by_cases h : payload < DATE_RANGE_MIN_VALUE
    · rw [if_pos h]; exact ⟨h1, h2⟩
    · rw [if_neg h]
      exact ⟨show DATE_RANGE_MIN_VALUE ≤ payload by omega, h2⟩
  | changeDateToValue payload =>
    simp only [graphScreenReducer, changeDateToHandler]
    by_cases h : DATE_RANGE_MAX_VALUE < payload
    · rw [if_pos h]; exact ⟨h1, h2⟩
    · rw [if_neg h]
      exact ⟨h1, show payload ≤ DATE_RANGE_MAX_VALUE by omega⟩

/-- Folding any action list preserves the one-sided window bounds. -/
lemma foldl_graphScreenReducer_bounds :
    ∀ (acts : List GraphScreenAction) (s : GraphScreenState),
      DATE_RANGE_MIN_VALUE ≤ s.dateFrom → s.dateTo ≤ DATE_RANGE_MAX_VALUE →
      DATE_RANGE_MIN_VALUE ≤ (acts.foldl graphScreenReducer s).dateFrom ∧
        (acts.foldl graphScreenReducer s).dateTo ≤ DATE_RANGE_MAX_VALUE := by
  intro acts
  induction acts with
  | nil => intro s h1 h2; exact ⟨h1, h2⟩
  | cons a rest ih =>
    intro s h1 h2
    have step := graphScreenReducer_preserves_bounds s a h1 h2
    exact ih (graphScreenReducer s a) step.1 step.2

/-! ## Claim theorems -/

/-- C1: for every candidate timestamp `c` with
`RANGE_MIN ≤ c ≤ RANGE_MAX` and every state `s`, `setWindowStart(c)`
returns a state whose `dateFrom` is exactly `c` and whose `dateTo` and
`points` equal those of `s`. -/
theorem setWindowStart_accepts_in_range (c : Int) (s : GraphScreenState)
    (hmin : DATE_RANGE_MIN_VALUE ≤ c) (_hmax : c ≤ DATE_RANGE_MAX_VALUE) :
    graphScreenReducer s (.changeDateFromValue c) =
      { dateFrom := c, dateTo := s.dateTo, points := s.points } := by
  simp only [graphScreenReducer, changeDateFromHandler, if_neg (not_lt.mpr hmin)]

/-- Witness for C1: `setWindowStart(2010-05-10)` (minute offset 12960)
from the initial state is accepted and sets `dateFrom` to 12960. -/
theorem setWindowStart_accepts_in_range_witness :
    graphScreenReducer initialState (.changeDateFromValue 12960) =
      { dateFrom := 12960, dateTo := initialState.dateTo, points := initialState.points } :=
  setWindowStart_accepts_in_range 12960 initialState (by decide) (by decide)

/-- C2: for every candidate timestamp `c` strictly before `RANGE_MIN`
and every state `s`, `setWindowStart(c)` returns the current state
unchanged. -/
theorem setWindowStart_rejects_below_min (c : Int) (s : GraphScreenState)
    (h : c < DATE_RANGE_MIN_VALUE) :
    graphScreenReducer s (.changeDateFromValue c) = s := by
  simp only [graphScreenReducer, changeDateFromHandler, if_pos h]

/-- Witness for C2: `setWindowStart(2010-04-30)` (minute offset -1440)
from the initial state is rejected and the state is unchanged. -/
theorem setWindowStart_rejects_below_min_witness :
    graphScreenReducer initialState (.changeDateFromValue (-1440)) = initialState :=
  setWindowStart_rejects_below_min (-1440) initialState (by decide)

/-- C3: `setWindowEnd(c)` leaves the state unchanged when `c` is
strictly after `RANGE_MAX`, and for every other candidate returns a new
state with `dateTo = c` and `dateFrom`, `points` carried over. -/
theorem setWindowEnd_guard (c : Int) (s : GraphScreenState) :
    (DATE_RANGE_MAX_VALUE < c → graphScreenReducer s (.changeDateToValue c) = s) ∧
      (¬ DATE_RANGE_MAX_VALUE < c →
        graphScreenReducer s (.changeDateToValue c) =
          { dateFrom := s.dateFrom, dateTo := c, points := s.points }) := by
  constructor
  · intro h
    simp only [graphScreenReducer, changeDateToHandler, if_pos h]
  · intro h
    simp only [graphScreenReducer, changeDateToHandler, if_neg h]

/-- Witness for C3: `setWindowEnd(2010-06-01)` (minute offset 44640) is
rejected, while `setWindowEnd(2010-05-10)` (minute offset 12960) is
accepted and sets `dateTo`. -/
theorem setWindowEnd_guard_witness :
    graphScreenReducer initialState (.changeDateToValue 44640) = initialState ∧
      graphScreenReducer initialState (.changeDateToValue 12960) =
        { dateFrom := initialState.dateFrom, dateTo := 12960,
          points := initialState.points } :=
  ⟨(setWindowEnd_guard 44640 initialState).1 (by decide),
    (setWindowEnd_guard 12960 initialState).2 (by decide)⟩

/-- C4 counterexample: the claim that every reachable state keeps both
window edges inside `[RANGE_MIN, RANGE_MAX]` is false: dispatching
`setWindowStart(2010-05-30)` (minute offset 41760, past `RANGE_MAX`)
from the initial state is accepted, yielding a reachable state whose
`dateFrom` is strictly after `RANGE_MAX`. -/
theorem window_two_sided_invariant_counterexample :
    Reachable (graphScreenReducer initialState (.changeDateFromValue 41760)) ∧
      DATE_RANGE_MAX_VALUE <
        (graphScreenReducer initialState (.changeDateFromValue 41760)).dateFrom :=
  ⟨⟨[.changeDateFromValue 41760], rfl⟩, by decide⟩

/-- C4 (amended): every reachable state satisfies the one-sided bounds
the guards actually enforce: `RANGE_MIN ≤ dateFrom` and
`dateTo ≤ RANGE_MAX`. -/
theorem reachable_window_one_sided_bounds (s : GraphScreenState) (h : Reachable s) :
    DATE_RANGE_MIN_VALUE ≤ s.dateFrom ∧ s.dateTo ≤ DATE_RANGE_MAX_VALUE := by
  obtain ⟨acts, rfl⟩ := h
  exact foldl_graphScreenReducer_bounds acts initialState (by decide) (by decide)

/-- Witness for the amended C4: the initial state is reachable (by the
empty action list) and satisfies both one-sided bounds. -/
theorem reachable_window_one_sided_bounds_witness :
    DATE_RANGE_MIN_VALUE ≤ initialState.dateFrom ∧
      initialState.dateTo ≤ DATE_RANGE_MAX_VALUE :=
  reachable_window_one_sided_bounds initialState ⟨[], rfl⟩

/-- C5: the generated points sequence has exactly 7776 entries, the
first being `{time: 2010-05-01T00:00, value: 0}` and the second
`{time: 2010-05-01T00:05, value: 5}` (the generator is a pure function
of the configured constants, so repeated initializations agree). -/
theorem randomDateTimePoints_shape :
    randomDateTimePoints.length = 7776 ∧
      ∃ rest, randomDateTimePoints = ⟨0, 0⟩ :: ⟨5, 5⟩ :: rest := by
  refine ⟨?_, randomDateTimePointsAux 7998 10, randomDateTimePoints_eq_cons⟩
  have := randomDateTimePointsAux_length 8000 DATE_RANGE_MIN_VALUE
    (by decide) (by decide) (by decide)
  simp only [randomDateTimePoints, DATE_RANGE_MIN_VALUE, DATE_RANGE_MAX_VALUE] at this ⊢
  omega

/-- C7: both commands are total (the reducer is a plain total function
of the prior state and the payload, raising nothing), and an
out-of-range window-edge command is a silent no-op returning the current
state unchanged. -/
theorem reducer_total_silent_rejection (s : GraphScreenState) (c : Int) :
    (c < DATE_RANGE_MIN_VALUE → graphScreenReducer s (.changeDateFromValue c) = s) ∧
      (DATE_RANGE_MAX_VALUE < c → graphScreenReducer s (.changeDateToValue c) = s) := by
  constructor
  · intro h
    simp only [graphScreenReducer, changeDateFromHandler, if_pos h]
  · intro h
    simp only [graphScreenReducer, changeDateToHandler, if_pos h]

/-- Witness for C7: a too-early window start and a too-late window end
are both silent no-ops from the initial state. -/
theorem reducer_total_silent_rejection_witness :
    graphScreenReducer initialState (.changeDateFromValue (-5)) = initialState ∧
      graphScreenReducer initialState (.changeDateToValue 50000) = initialState :=
  ⟨(reducer_total_silent_rejection initialState (-5)).1 (by decide),
    (reducer_total_silent_rejection initialState 50000).2 (by decide)⟩

/-- C8: the ordering `dateFrom ≤ dateTo` is not enforced: from the
reachable initial state, `setWindowStart(2010-05-10)` (minute offset
12960) is accepted — not rejected — and the resulting state has
`dateFrom` strictly after `dateTo`. -/
theorem window_order_not_enforced :
    Reachable initialState ∧
      graphScreenReducer initialState (.changeDateFromValue 12960) =
        { dateFrom := 12960, dateTo := initialState.dateTo,
          points := initialState.points } ∧
      (graphScreenReducer initialState (.changeDateFromValue 12960)).dateTo <
        (graphScreenReducer initialState (.changeDateFromValue 12960)).dateFrom :=
  ⟨⟨[], rfl⟩, rfl, by decide⟩

/-- C9: every generated sample value is an integer in `[0, 4195]`
(`4195 = 180*23 + 55`), and some generated value strictly exceeds the
declared `SAMPLE_VALUE_MAX` of 150, which never bounds or clamps the
generator. -/
theorem randomDateTimePoints_value_range :
    (∀ p ∈ randomDateTimePoints, 0 ≤ p.value ∧ p.value ≤ 4195) ∧
      (∃ p ∈ randomDateTimePoints, SAMPLE_VALUE_MAX < p.value) := by
  constructor
  · exact randomDateTimePointsAux_value_bounds 8000 DATE_RANGE_MIN_VALUE (by decide)
  · have hmem := randomDateTimePointsAux_mem 8000 12 0 (by decide) (by decide)
    exact ⟨_, hmem, by decide⟩

/-- Witness for C9: the bound conjunct applied to the first generated
point, `{time: 0, value: 0}`. -/
theorem randomDateTimePoints_value_range_witness :
    0 ≤ (⟨0, 0⟩ : DateTimePoint).value ∧ (⟨0, 0⟩ : DateTimePoint).value ≤ 4195 :=
  randomDateTimePoints_value_range.1 ⟨0, 0⟩
    (by rw [randomDateTimePoints_eq_cons]; exact List.mem_cons_self _ _)

/-- C10: `randomDotsScreenReducer` returns its input unchanged for any
unrecognized action, and each recognized action changes only its own
field, leaving every other field of the state unchanged. -/
theorem randomDotsScreenReducer_frame (s : IRandomDotsScreenState) :
    randomDotsScreenReducer s .other = s ∧
      (∀ w : Int,
        (randomDotsScreenReducer s (.setWidth w)).width = w ∧
        (randomDotsScreenReducer s (.setWidth w)).height = s.height ∧
        (randomDotsScreenReducer s (.setWidth w)).color = s.color ∧
        (randomDotsScreenReducer s (.setWidth w)).text = s.text) ∧
      (∀ h : Int,
        (randomDotsScreenReducer s (.setHeight h)).height = h ∧
        (randomDotsScreenReducer s (.setHeight h)).width = s.width ∧
        (randomDotsScreenReducer s (.setHeight h)).color = s.color ∧
        (randomDotsScreenReducer s (.setHeight h)).text = s.text) ∧
      (∀ t : String,
        (randomDotsScreenReducer s (.setText t)).text = some t ∧
        (randomDotsScreenReducer s (.setText t)).width = s.width ∧
        (randomDotsScreenReducer s (.setText t)).height = s.height ∧
        (randomDotsScreenReducer s (.setText t)).color = s.color) := by
  refine ⟨rfl, fun w => ⟨rfl, rfl, rfl, rfl⟩, fun h => ⟨rfl, rfl, rfl, rfl⟩,
    fun t => ⟨rfl, rfl, rfl, rfl⟩⟩

/-- Witness for C10: the frame conditions evaluated at the initial
random-dots state for one action of each kind. -/
theorem randomDotsScreenReducer_frame_witness :
    randomDotsScreenReducer randomDotsInitialState .other = randomDotsInitialState ∧
      (randomDotsScreenReducer randomDotsInitialState (.setWidth 1024)).width = 1024 :=
  ⟨(randomDotsScreenReducer_frame randomDotsInitialState).1,
    ((randomDotsScreenReducer_frame randomDotsInitialState).2.1 1024).1⟩
